import Mathlib

/-!
Shallow embedding of the box-office-drafting dashboard (layout calculator,
render-asset assembly, render orchestration, diagnostics and configuration
validation), together with theorems settling the specification claims.

All integer arithmetic is over `Int` (Python's unbounded `int`); Python's
floor division `//` is `Int.fdiv`.
-/

namespace BoxOffice

/-- The layout dictionary returned by `calculate_picks_table_layout`
(`src/utils/gsheet.py` and `src/sheets/tabs/dashboard.py`).
`best_picks_row_num` is `Option Int` because the Python value may be `None`. -/
structure Layout where
  available_height : Int
  add_both_picks_tables : Bool
  worst_picks_row_num : Int
  worst_picks_height : Int
  best_picks_row_num : Option Int
  best_picks_height : Int
deriving Repr, DecidableEq

namespace Gsheet

/-- `GoogleSheetDashboard.calculate_picks_table_layout` from
`src/utils/gsheet.py` (lines 182-264), translated statement by statement. -/
def calculate_picks_table_layout
    (scoreboard_length released_movies_length
     worst_picks_length best_picks_length : Int) : Layout :=
  let available_height := released_movies_length - scoreboard_length - 3
  let picks_row_num := 5 + scoreboard_length + 2
  let min_rows_per_table : Int := 2
  let separator_rows : Int := 2
  let total_required := min_rows_per_table * 2 + separator_rows
  if available_height ≥ total_required ∧
      worst_picks_length > 1 ∧ best_picks_length > 1 then
    let usable_height := available_height - 2 - separator_rows
    let height_per_table := Int.fdiv usable_height 2
    let worst_picks_height := min height_per_table worst_picks_length
    let best_picks_row_num := picks_row_num + 1 + worst_picks_height + separator_rows
    let best_picks_height :=
      min (usable_height - worst_picks_height) best_picks_length
    { available_height := available_height
      add_both_picks_tables := true
      worst_picks_row_num := picks_row_num
      worst_picks_height := worst_picks_height
      best_picks_row_num := some best_picks_row_num
      best_picks_height := best_picks_height }
  else
    let worst_picks_height :=
      if available_height > 0 ∧ worst_picks_length > 1 then
        min available_height worst_picks_length
      else 0
    { available_height := available_height
      add_both_picks_tables := false
      worst_picks_row_num := picks_row_num
      worst_picks_height := worst_picks_height
      best_picks_row_num := none
      best_picks_height := 0 }

end Gsheet

namespace DashboardTab

/-- `calculate_picks_table_layout` from `src/sheets/tabs/dashboard.py`
(lines 73-124), translated statement by statement. -/
def calculate_picks_table_layout
    (scoreboard_length released_movies_length
     worst_picks_length best_picks_length : Int) : Layout :=
  let available_height := released_movies_length - scoreboard_length - 3
  let picks_row_num := 5 + scoreboard_length + 2
  let min_rows_per_table : Int := 2
  let separator_rows : Int := 2
  let total_required := min_rows_per_table * 2 + separator_rows
  if available_height ≥ total_required ∧
      worst_picks_length > 1 ∧ best_picks_length > 1 then
    let usable_height := available_height - 2 - separator_rows
    let height_per_table := Int.fdiv usable_height 2
    let worst_picks_height := min height_per_table worst_picks_length
    let best_picks_row_num := picks_row_num + 1 + worst_picks_height + separator_rows
    let best_picks_height :=
      min (usable_height - worst_picks_height) best_picks_length
    { available_height := available_height
      add_both_picks_tables := true
      worst_picks_row_num := picks_row_num
      worst_picks_height := worst_picks_height
      best_picks_row_num := some best_picks_row_num
      best_picks_height := best_picks_height }
  else
    let worst_picks_height :=
      if available_height > 0 ∧ worst_picks_length > 1 then
        min available_height worst_picks_length
      else 0
    { available_height := available_height
      add_both_picks_tables := false
      worst_picks_row_num := picks_row_num
      worst_picks_height := worst_picks_height
      best_picks_row_num := none
      best_picks_height := 0 }

end DashboardTab

/-! ### Characterization lemmas for the layout calculator -/

theorem fdiv_two_eq (a : Int) : Int.fdiv a 2 = a / 2 :=
  Int.fdiv_eq_ediv a (by decide)

/-- Both-tables branch, fully evaluated. -/
theorem layout_both_branch (s r w b : Int)
    (h : r - s - 3 ≥ 6 ∧ w > 1 ∧ b > 1) :
    Gsheet.calculate_picks_table_layout s r w b =
      { available_height := r - s - 3
        add_both_picks_tables := true
        worst_picks_row_num := 5 + s + 2
        worst_picks_height := min ((r - s - 7) / 2) w
        best_picks_row_num := some (5 + s + 2 + 1 + min ((r - s - 7) / 2) w + 2)
        best_picks_height := min ((r - s - 7) - min ((r - s - 7) / 2) w) b } := by
  simp only [Gsheet.calculate_picks_table_layout, fdiv_two_eq]
  rw [if_pos (show _ ∧ _ from ⟨by omega, h.2⟩)]
  have h2 : r - s - 3 - 2 - 2 = r - s - 7 := by omega
  simp [h2]

/-- Fallback branch, fully evaluated. -/
theorem layout_fallback_branch (s r w b : Int)
    (h : ¬(r - s - 3 ≥ 6 ∧ w > 1 ∧ b > 1)) :
    Gsheet.calculate_picks_table_layout s r w b =
      { available_height := r - s - 3
        add_both_picks_tables := false
        worst_picks_row_num := 5 + s + 2
        worst_picks_height :=
          if r - s - 3 > 0 ∧ w > 1 then min (r - s - 3) w else 0
        best_picks_row_num := none
        best_picks_height := 0 } := by
  simp only [Gsheet.calculate_picks_table_layout]
  rw [if_neg (by intro hc; exact h ⟨by omega, hc.2⟩)]

/-- The two source copies of the layout function compute the same result. -/
theorem layout_impl_eq (s r w b : Int) :
    Gsheet.calculate_picks_table_layout s r w b =
      DashboardTab.calculate_picks_table_layout s r w b := rfl

/-- The proposition asserted by claim C10: some input distinguishes the two
re-implementations of the layout formula. -/
def layouts_diverge : Prop :=
  ∃ s r w b : Int,
    Gsheet.calculate_picks_table_layout s r w b ≠
      DashboardTab.calculate_picks_table_layout s r w b

/-! ### Claim theorems for the layout calculator -/

/-- Claim C1: for all non-negative integer inputs, `add_both_picks_tables`
is true exactly when `available_height ≥ 6` and both picks lengths exceed 1;
in that case `worst_picks_height = min(usable_height / 2, worstLen)` with
`usable_height = available_height - 4`,
`best_picks_row_num = worst_picks_row_num + 1 + worst_picks_height + 2`, and
`best_picks_height = min(usable_height - worst_picks_height, bestLen)`, so an
odd usable height gives the extra row to the best-picks table. -/
theorem claim1_add_both_tables_characterization (s r w b : Nat) :
    ((Gsheet.calculate_picks_table_layout s r w b).add_both_picks_tables = true ↔
      ((r : Int) - (s : Int) - 3 ≥ 6 ∧ (1 : Int) < (w : Int) ∧ (1 : Int) < (b : Int))) ∧
    ((Gsheet.calculate_picks_table_layout s r w b).add_both_picks_tables = true →
      ((Gsheet.calculate_picks_table_layout s r w b).worst_picks_height =
          min (((r : Int) - (s : Int) - 3 - 4) / 2) (w : Int) ∧
        (Gsheet.calculate_picks_table_layout s r w b).best_picks_row_num =
          some ((Gsheet.calculate_picks_table_layout s r w b).worst_picks_row_num + 1 +
            (Gsheet.calculate_picks_table_layout s r w b).worst_picks_height + 2) ∧
        (Gsheet.calculate_picks_table_layout s r w b).best_picks_height =
          min (((r : Int) - (s : Int) - 3 - 4) -
            (Gsheet.calculate_picks_table_layout s r w b).worst_picks_height) (b : Int))) := by
  by_cases h : (r : Int) - (s : Int) - 3 ≥ 6 ∧ (1 : Int) < (w : Int) ∧ (1 : Int) < (b : Int)
  · rw [layout_both_branch (s : Int) r w b (by exact ⟨h.1, h.2.1, h.2.2⟩)]
    refine ⟨by simpa using h, fun _ => ⟨by simp <;> omega, by simp <;> omega, by simp <;> omega⟩⟩
  · rw [layout_fallback_branch (s : Int) r w b (by intro hc; exact h ⟨hc.1, hc.2.1, hc.2.2⟩)]
    refine ⟨by simpa using h, by simp⟩

/-- Claim C1 witness: inputs (2, 16, 10, 10) give `add_both_picks_tables`,
`worst_picks_height = 3` and `best_picks_height = 4`. -/
theorem claim1_witness :
    (Gsheet.calculate_picks_table_layout 2 16 10 10).add_both_picks_tables = true ∧
    (Gsheet.calculate_picks_table_layout 2 16 10 10).worst_picks_height = 3 ∧
    (Gsheet.calculate_picks_table_layout 2 16 10 10).best_picks_height = 4 := by
  refine ⟨(claim1_add_both_tables_characterization 2 16 10 10).1.mpr (by norm_num),
    by decide, by decide⟩

/-- Claim C2: the heights in the layout always satisfy
`0 ≤ worst_picks_height ≤ worst_picks_length` and
`0 ≤ best_picks_height ≤ best_picks_length`. -/
theorem claim2_heights_within_bounds (s r w b : Nat) :
    0 ≤ (Gsheet.calculate_picks_table_layout s r w b).worst_picks_height ∧
    (Gsheet.calculate_picks_table_layout s r w b).worst_picks_height ≤ (w : Int) ∧
    0 ≤ (Gsheet.calculate_picks_table_layout s r w b).best_picks_height ∧
    (Gsheet.calculate_picks_table_layout s r w b).best_picks_height ≤ (b : Int) := by
  by_cases h : (r : Int) - (s : Int) - 3 ≥ 6 ∧ (w : Int) > 1 ∧ (b : Int) > 1
  · rw [layout_both_branch (s : Int) r w b h]
    refine ⟨by simp <;> omega, by simp <;> omega, by simp <;> omega, by simp <;> omega⟩
  · rw [layout_fallback_branch (s : Int) r w b h]
    refine ⟨?_, ?_, by simp, by simp⟩ <;> simp only <;> split <;> omega

/-- Claim C3: whenever the both-tables condition fails, the layout has
`best_picks_row_num` absent, `best_picks_height = 0`, and
`worst_picks_height = min(available_height, worstLen)` if
`available_height > 0` and `worstLen > 1`, else `0`; negative available
height degrades to zero heights (the function is total, never raising). -/
theorem claim3_fallback_single_table (s r w b : Nat)
    (h : (r : Int) - (s : Int) - 3 < 6 ∨ (w : Int) ≤ 1 ∨ (b : Int) ≤ 1) :
    (Gsheet.calculate_picks_table_layout s r w b).best_picks_row_num = none ∧
    (Gsheet.calculate_picks_table_layout s r w b).best_picks_height = 0 ∧
    (Gsheet.calculate_picks_table_layout s r w b).worst_picks_height =
      (if (r : Int) - (s : Int) - 3 > 0 ∧ (1 : Int) < (w : Int) then
        min ((r : Int) - (s : Int) - 3) (w : Int) else 0) := by
  rw [layout_fallback_branch (s : Int) r w b (by omega)]
  exact ⟨rfl, rfl, rfl⟩

/-- Claim C3 witness: inputs (2, 8, 10, 10) give `available_height = 3`,
a single worst-picks table of height 3 and no best-picks table. -/
theorem claim3_witness :
    (Gsheet.calculate_picks_table_layout 2 8 10 10).best_picks_row_num = none ∧
    (Gsheet.calculate_picks_table_layout 2 8 10 10).best_picks_height = 0 ∧
    (Gsheet.calculate_picks_table_layout 2 8 10 10).worst_picks_height = 3 := by
  have h := claim3_fallback_single_table 2 8 10 10 (by norm_num)
  exact ⟨h.1, h.2.1, by decide⟩

/-- Claim C4: `worst_picks_row_num = 5 + scoreboard_length + 2` for every
input, even when no picks table is ultimately shown. -/
theorem claim4_worst_picks_row_num (s r w b : Nat) :
    (Gsheet.calculate_picks_table_layout s r w b).worst_picks_row_num =
      5 + (s : Int) + 2 := by
  by_cases h : (r : Int) - (s : Int) - 3 ≥ 6 ∧ (w : Int) > 1 ∧ (b : Int) > 1
  · rw [layout_both_branch (s : Int) r w b h]
  · rw [layout_fallback_branch (s : Int) r w b h]

/-- Claim C10 counterexample: the claim that the gsheet.py and
tabs/dashboard.py re-implementations of `calculate_picks_table_layout`
return different layouts for some input is false — no such input exists. -/
theorem claim10_counterexample : ¬ layouts_diverge := by
  rintro ⟨s, r, w, b, hne⟩
  exact hne (layout_impl_eq s r w b)

/-! ### Render-asset geometry (claim C5)

`GoogleSheetDashboard.__init__` anchors the scoreboard at B4 and the released
movies at I4, appends the worst-picks table at B{worst_picks_row_num} (when
`add_both_picks_tables` or the single-table fallback applies) and the
best-picks table at B{best_picks_row_num} (when both are shown);
`update_titles` writes each block's title one row above its anchor (B2 and I2
for the two fixed blocks). Each block spans a fixed column range: B-G
(columns 2-7) for scoreboard and picks tables, I-X (columns 9-24) for
released movies. -/

/-- A rectangular region of cells: closed intervals of 1-indexed rows and
columns. -/
structure Block where
  rowLo : Int
  rowHi : Int
  colLo : Int
  colHi : Int
deriving Repr, DecidableEq

/-- Cell membership in a block. -/
def Block.holds (blk : Block) (row col : Int) : Prop :=
  blk.rowLo ≤ row ∧ row ≤ blk.rowHi ∧ blk.colLo ≤ col ∧ col ≤ blk.colHi

/-- Two blocks are disjoint when no cell lies in both. -/
def Block.Disjoint (b1 b2 : Block) : Prop :=
  ∀ row col : Int, ¬(b1.holds row col ∧ b2.holds row col)

theorem Block.disjoint_of_separated (b1 b2 : Block)
    (h : b1.rowHi < b2.rowLo ∨ b2.rowHi < b1.rowLo ∨
      b1.colHi < b2.colLo ∨ b2.colHi < b1.colLo) :
    b1.Disjoint b2 := by
  intro row col hc
  obtain ⟨⟨a1, a2, a3, a4⟩, c1, c2, c3, c4⟩ := hc
  omega

/-- Scoreboard block: title at B2 (merged B2:F2), header row B4:G4, data rows
through row `4 + scoreboard_length`, columns B(2)-G(7). -/
def scoreboardBlock (scoreboard_length : Int) : Block :=
  { rowLo := 2, rowHi := 4 + scoreboard_length, colLo := 2, colHi := 7 }

/-- Released-movies block: title at I2 (merged I2:X2), header row I4:X4, data
rows through row `4 + released_movies_length`, columns I(9)-X(24). -/
def releasedMoviesBlock (released_movies_length : Int) : Block :=
  { rowLo := 2, rowHi := 4 + released_movies_length, colLo := 9, colHi := 24 }

/-- Worst-picks block: title one row above the anchor, header at the anchor
row, `worst_picks_height` truncated data rows below it, columns B(2)-G(7). -/
def worstPicksBlock (worst_picks_row_num worst_picks_height : Int) : Block :=
  { rowLo := worst_picks_row_num - 1
    rowHi := worst_picks_row_num + worst_picks_height
    colLo := 2, colHi := 7 }

/-- Best-picks block: title one row above the anchor, header at the anchor
row, `best_picks_height` truncated data rows below it, columns B(2)-G(7). -/
def bestPicksBlock (best_picks_row_num best_picks_height : Int) : Block :=
  { rowLo := best_picks_row_num - 1
    rowHi := best_picks_row_num + best_picks_height
    colLo := 2, colHi := 7 }

/-- The cell blocks of the assets assembled by `GoogleSheetDashboard.__init__`
(together with the titles written by `update_titles`): scoreboard and
released movies always; the worst-picks table when both tables fit or the
single-table fallback applies (`add_picks_table`); the best-picks table only
when both tables fit. -/
def dashboardBlocks (s r w b : Nat) : List Block :=
  let layout := Gsheet.calculate_picks_table_layout s r w b
  let base := [scoreboardBlock s, releasedMoviesBlock r]
  if layout.add_both_picks_tables then
    base ++ [worstPicksBlock layout.worst_picks_row_num layout.worst_picks_height,
      bestPicksBlock (layout.best_picks_row_num.getD 0) layout.best_picks_height]
  else if layout.worst_picks_height > 0 ∧ (w : Int) > 1 then
    base ++ [worstPicksBlock layout.worst_picks_row_num layout.worst_picks_height]
  else base

/-- With room for both tables, the assembled blocks are exactly scoreboard,
released movies, worst picks and best picks. -/
theorem dashboardBlocks_both (s r w b : Nat)
    (h : (r : Int) - (s : Int) - 3 ≥ 6 ∧ (w : Int) > 1 ∧ (b : Int) > 1) :
    dashboardBlocks s r w b =
      [scoreboardBlock s, releasedMoviesBlock r,
        worstPicksBlock (5 + (s : Int) + 2) (min (((r : Int) - s - 7) / 2) w),
        bestPicksBlock (5 + (s : Int) + 2 + 1 + min (((r : Int) - s - 7) / 2) w + 2)
          (min (((r : Int) - s - 7) - min (((r : Int) - s - 7) / 2) w) b)] := by
  simp [dashboardBlocks, layout_both_branch (s : Int) r w b h]

/-- In the single-table fallback with usable data, the assembled blocks are
scoreboard, released movies and the worst-picks table. -/
theorem dashboardBlocks_single (s r w b : Nat)
    (h : ¬((r : Int) - (s : Int) - 3 ≥ 6 ∧ (w : Int) > 1 ∧ (b : Int) > 1))
    (hq : (r : Int) - (s : Int) - 3 > 0 ∧ (w : Int) > 1) :
    dashboardBlocks s r w b =
      [scoreboardBlock s, releasedMoviesBlock r,
        worstPicksBlock (5 + (s : Int) + 2) (min ((r : Int) - s - 3) w)] := by
  simp only [dashboardBlocks, layout_fallback_branch (s : Int) r w b h]
  rw [if_neg (by simp), if_pos hq, if_pos (⟨by omega, hq.2⟩ :
    (0 : Int) < min ((r : Int) - s - 3) w ∧ (w : Int) > 1)]
  rfl

/-- With no usable picks data or no space at all, only the two fixed blocks
are assembled. -/
theorem dashboardBlocks_none (s r w b : Nat)
    (h : ¬((r : Int) - (s : Int) - 3 ≥ 6 ∧ (w : Int) > 1 ∧ (b : Int) > 1))
    (hq : ¬((r : Int) - (s : Int) - 3 > 0 ∧ (w : Int) > 1)) :
    dashboardBlocks s r w b = [scoreboardBlock s, releasedMoviesBlock r] := by
  simp only [dashboardBlocks, layout_fallback_branch (s : Int) r w b h]
  rw [if_neg (by simp), if_neg hq, if_neg (by omega)]

/-- Claim C5: for every input dataset, the assembled render assets occupy
pairwise disjoint cell ranges — the scoreboard, released-movies, worst-picks
and (when shown) best-picks blocks, each including its title, header and
truncated data rows, never overlap. -/
theorem claim5_blocks_pairwise_disjoint (s r w b : Nat) :
    (dashboardBlocks s r w b).Pairwise Block.Disjoint := by
  by_cases h : (r : Int) - (s : Int) - 3 ≥ 6 ∧ (w : Int) > 1 ∧ (b : Int) > 1
  · rw [dashboardBlocks_both s r w b h]
    obtain ⟨h1, h2, h3⟩ := h
    refine List.Pairwise.cons ?_ (List.Pairwise.cons ?_
      (List.Pairwise.cons ?_ (List.pairwise_singleton _ _)))
    · intro x hx
      simp only [List.mem_cons, List.not_mem_nil, or_false] at hx
      rcases hx with rfl | rfl | rfl
      all_goals refine Block.disjoint_of_separated _ _ ?_
      all_goals simp only [scoreboardBlock, releasedMoviesBlock,
        worstPicksBlock, bestPicksBlock]
      all_goals omega
    · intro x hx
      simp only [List.mem_cons, List.not_mem_nil, or_false] at hx
      rcases hx with rfl | rfl
      all_goals refine Block.disjoint_of_separated _ _ ?_
      all_goals simp only [releasedMoviesBlock, worstPicksBlock, bestPicksBlock]
      all_goals omega
    · intro x hx
      simp only [List.mem_cons, List.not_mem_nil, or_false] at hx
      rcases hx with rfl
      refine Block.disjoint_of_separated _ _ ?_
      simp only [worstPicksBlock, bestPicksBlock]
      omega
  · by_cases hq : (r : Int) - (s : Int) - 3 > 0 ∧ (w : Int) > 1
    · rw [dashboardBlocks_single s r w b h hq]
      refine List.Pairwise.cons ?_ (List.Pairwise.cons ?_
        (List.pairwise_singleton _ _))
      · intro x hx
        simp only [List.mem_cons, List.not_mem_nil, or_false] at hx
        rcases hx with rfl | rfl
        all_goals refine Block.disjoint_of_separated _ _ ?_
        all_goals simp only [scoreboardBlock, releasedMoviesBlock, worstPicksBlock]
        all_goals omega
      · intro x hx
        simp only [List.mem_cons, List.not_mem_nil, or_false] at hx
        rcases hx with rfl
        refine Block.disjoint_of_separated _ _ ?_
        simp only [releasedMoviesBlock, worstPicksBlock]
        omega
    · rw [dashboardBlocks_none s r w b h hq]
      refine List.Pairwise.cons ?_ (List.pairwise_singleton _ _)
      intro x hx
      simp only [List.mem_cons, List.not_mem_nil, or_false] at hx
      rcases hx with rfl
      refine Block.disjoint_of_separated _ _ ?_
      simp only [scoreboardBlock, releasedMoviesBlock]
      omega

/-! ### Freshness message (claim C6)

`update_dashboard` in `src/utils/gsheet.py` (lines 296-344) and
`DashboardWorksheet._write_timestamp_metadata` in
`src/sheets/tabs/dashboard.py` (lines 455-493) build the same freshness
message. The released-movies table is abstracted to its
"Still In Theaters" column; the two timestamps are opaque strings. -/

/-- `dashboard_done_updating` from `update_dashboard`: every row's
"Still In Theaters" equals "No" (vacuously true on an empty table), the
table is non-empty, and the configured year is strictly less than the
current UTC year. -/
def dashboard_done_updating (still_in_theaters : List String)
    (year current_utc_year : Int) : Bool :=
  still_in_theaters.all (fun v => v == "No") &&
    decide (0 < still_in_theaters.length) &&
    decide (year < current_utc_year)

/-- The `log_string` written to cell G2 by `update_dashboard`, with the two
`strftime` outputs as opaque strings. -/
def update_dashboard_log_string (now_str : String) (still_in_theaters : List String)
    (year current_utc_year : Int) (data_through_str : String) : String :=
  let log_string := "Dashboard Last Updated\n" ++ now_str ++ " UTC"
  let log_string :=
    if dashboard_done_updating still_in_theaters year current_utc_year then
      log_string ++ "\nDashboard is done updating\nand can be removed from the etl"
    else log_string
  log_string ++ "\nData Updated Through\n" ++ data_through_str ++ " UTC"

/-- The freshness message as the spec describes it: the last-updated
timestamp, then the done-updating notice exactly when the table is
non-empty, every row is "No" and the configured year precedes the current
UTC year, then the data-updated-through timestamp. -/
def specFreshnessMessage (now_str : String) (still_in_theaters : List String)
    (year current_utc_year : Int) (data_through_str : String) : String :=
  if still_in_theaters ≠ [] ∧ (∀ v ∈ still_in_theaters, v = "No") ∧
      year < current_utc_year then
    "Dashboard Last Updated\n" ++ now_str ++ " UTC" ++
      "\nDashboard is done updating\nand can be removed from the etl" ++
      "\nData Updated Through\n" ++ data_through_str ++ " UTC"
  else
    "Dashboard Last Updated\n" ++ now_str ++ " UTC" ++
      "\nData Updated Through\n" ++ data_through_str ++ " UTC"

theorem dashboard_done_updating_iff (still : List String) (year cy : Int) :
    dashboard_done_updating still year cy = true ↔
      (still ≠ [] ∧ (∀ v ∈ still, v = "No") ∧ year < cy) := by
  simp only [dashboard_done_updating, Bool.and_eq_true, List.all_eq_true,
    beq_iff_eq, decide_eq_true_eq, List.length_pos]
  tauto

/-- Claim C6: the freshness message contains the additional
"done updating and can be removed" text iff the released-movies table has at
least one row, every row's "Still In Theaters" value equals "No", and the
configured year is strictly less than the current UTC year; otherwise the
message states only the two timestamps. -/
theorem claim6_freshness_message (now_str : String) (still : List String)
    (year current_utc_year : Int) (data_through_str : String) :
    (dashboard_done_updating still year current_utc_year = true ↔
      (still ≠ [] ∧ (∀ v ∈ still, v = "No") ∧ year < current_utc_year)) ∧
    update_dashboard_log_string now_str still year current_utc_year data_through_str =
      specFreshnessMessage now_str still year current_utc_year data_through_str := by
  refine ⟨dashboard_done_updating_iff still year current_utc_year, ?_⟩
  simp only [update_dashboard_log_string, specFreshnessMessage]
  by_cases hc : still ≠ [] ∧ (∀ v ∈ still, v = "No") ∧ year < current_utc_year
  · rw [if_pos ((dashboard_done_updating_iff still year current_utc_year).mpr hc),
      if_pos hc]
  · rw [if_neg (fun hb =>
      hc ((dashboard_done_updating_iff still year current_utc_year).mp hb)),
      if_neg hc]

/-! ### Missing-movies diagnostic (claim C9)

`log_missing_movies` from `src/utils/gsheet.py` (lines 550-568): the drafted
and released titles are coerced to strings, the set difference
`set(drafted) - set(released)` is taken, and the non-empty case logs the
sorted comma-joined list while the empty case logs a success message. The
model returns the payload of the final log call. -/

/-- The set difference `set(drafted_movies) - set(released_movies)`,
represented as the deduplicated list of drafted titles not among the
released titles, in sorted order (the order Python's `sorted` produces). -/
def missingMovies (drafted_movies released_movies : List String) : List String :=
  ((drafted_movies.filter fun m => !(released_movies.contains m)).dedup).mergeSort

/-- `log_missing_movies`: the payload of the log line it emits. -/
def log_missing_movies (drafted_movies released_movies : List String) : String :=
  let movies_missing_from_scoreboard :=
    (drafted_movies.filter fun m => !(released_movies.contains m)).dedup
  if movies_missing_from_scoreboard ≠ [] then
    ", ".intercalate movies_missing_from_scoreboard.mergeSort
  else
    "All movies are on the scoreboard."

/-- Claim C9: `log_missing_movies` logs exactly the set difference of
drafted titles minus released titles — sorted and comma-joined when
non-empty, a success message otherwise; in particular drafted {A,B,C} and
released {A,B} report exactly {C}. -/
theorem claim9_log_missing_movies (drafted released : List String) :
    (∀ m, m ∈ missingMovies drafted released ↔ (m ∈ drafted ∧ m ∉ released)) ∧
    List.Sorted (· ≤ ·) (missingMovies drafted released) ∧
    log_missing_movies drafted released =
      (if missingMovies drafted released ≠ [] then
        ", ".intercalate (missingMovies drafted released)
      else "All movies are on the scoreboard.") ∧
    missingMovies ["A", "B", "C"] ["A", "B"] = ["C"] := by
  refine ⟨?_, ?_, ?_, by
    unfold missingMovies
    rw [show ((["A", "B", "C"].filter fun m => !(["A", "B"].contains m)).dedup) = ["C"]
      from by decide, List.mergeSort_singleton]⟩
  · intro m
    simp [missingMovies, List.mem_dedup, List.mem_filter]
  · exact List.sorted_mergeSort' _
  · unfold log_missing_movies missingMovies
    by_cases hne : (drafted.filter fun m => !(released.contains m)).dedup ≠ []
    · rw [if_pos hne, if_pos (by
        intro hms
        apply hne
        have hp := List.mergeSort_perm
          ((drafted.filter fun m => !(released.contains m)).dedup) (fun a b => decide (a ≤ b))
        rw [hms] at hp
        exact hp.symm.eq_nil)]
    · rw [if_neg hne, if_neg (by
        push_neg at hne ⊢
        rw [hne]
        exact List.mergeSort_nil)]

/-! ### Worksheet provisioning (claim C7)

`run_dashboard` in `src/sheets/runner.py` provisions worksheets through a
pre-run hook (`_handle_missing_worksheets`, lines 81-90), a post-run resize
(`_resize_sheet`, lines 42-49, using `sheet_height = released_movies_length
+ 5` from the generated context) and a post-run reorder
(`_adjust_worksheet_order`, lines 93-97). The spreadsheet is modelled as an
ordered list of worksheets; create appends, delete removes by name, and
reorder moves the named worksheets to the front in the given order. -/

/-- A worksheet: its name and grid size. -/
structure Worksheet where
  name : String
  rows : Int
  cols : Int
deriving Repr, DecidableEq

/-- The spreadsheet state: worksheets in tab order. -/
abbrev SheetState := List Worksheet

/-- `ss.create_worksheet(name, rows, cols)`: appends a new worksheet. -/
def create_worksheet (st : SheetState) (n : String) (rows cols : Int) : SheetState :=
  st ++ [⟨n, rows, cols⟩]

/-- `ss.delete_worksheet(name)`: removes the named worksheet. -/
def delete_worksheet (st : SheetState) (n : String) : SheetState :=
  st.filter fun ws => ws.name != n

/-- `name in ss.get_worksheet_names()`. -/
def has_worksheet (st : SheetState) (n : String) : Bool :=
  st.any fun ws => ws.name == n

/-- `ws.resize_sheet(rows, cols)` applied to the named worksheet. -/
def resize_sheet (st : SheetState) (n : String) (rows cols : Int) : SheetState :=
  st.map fun ws => if ws.name == n then ⟨ws.name, rows, cols⟩ else ws

/-- `ss.reorder_worksheets(order)`: the worksheets named in `order` move to
the front in that order, the rest keep their relative order behind them. -/
def reorder_worksheets (st : SheetState) (order : List String) : SheetState :=
  (order.filterMap fun n => st.find? fun ws => ws.name == n) ++
    (st.filter fun ws => !(order.contains ws.name))

/-- `_handle_missing_worksheets` from `src/sheets/runner.py` (lines 81-90):
create the two sibling worksheets when absent, delete the Dashboard when
present, and create a fresh Dashboard with 500 rows and 25 columns. -/
def handle_missing_worksheets (st : SheetState) : SheetState :=
  let st := if !(has_worksheet st "Manual Adds") then
    create_worksheet st "Manual Adds" 100 5 else st
  let st := if !(has_worksheet st "Multipliers and Exclusions") then
    create_worksheet st "Multipliers and Exclusions" 100 3 else st
  let st := if has_worksheet st "Dashboard" then
    delete_worksheet st "Dashboard" else st
  create_worksheet st "Dashboard" 500 25

/-- The canonical worksheet order passed to `reorder_worksheets` by
`_adjust_worksheet_order`. -/
def canonicalWorksheetOrder : List String :=
  ["Dashboard", "Draft", "Manual Adds", "Multipliers and Exclusions"]

/-- The worksheet-provisioning effects of one `run_dashboard` cycle: the
pre-run hook, then (after data population) the post-run resize to
`released_movies_length + 5` rows by 25 columns, then the canonical
reorder. -/
def run_dashboard_worksheets (st : SheetState) (released_movies_length : Int) :
    SheetState :=
  let st := handle_missing_worksheets st
  let st := resize_sheet st "Dashboard" (released_movies_length + 5) 25
  reorder_worksheets st canonicalWorksheetOrder

/-- Claim C7 counterexample: starting from a spreadsheet holding a Draft tab
and a Dashboard of 300 rows, with a released-movies table of 16 rows, the
recreated Dashboard has 500 rows — not `released_movies_length + 5 = 21` —
so the claim that the Dashboard is recreated sized to
`released_movies_length + 5` rows is false. -/
theorem claim7_counterexample :
    ((handle_missing_worksheets
        [⟨"Draft", 100, 26⟩, ⟨"Dashboard", 300, 25⟩]).filter
      fun ws => ws.name == "Dashboard") = [⟨"Dashboard", 500, 25⟩] ∧
    (500 : Int) ≠ 16 + 5 := by
  constructor
  · rfl
  · decide

/-- After the pre-run hook the state splits as non-Dashboard worksheets
(including both siblings) followed by the fresh Dashboard. -/
theorem handle_missing_worksheets_split (st : SheetState) :
    ∃ pre : SheetState,
      handle_missing_worksheets st = pre ++ [⟨"Dashboard", 500, 25⟩] ∧
      (∀ ws ∈ pre, ws.name ≠ "Dashboard") ∧
      (∃ ws ∈ pre, ws.name = "Manual Adds") ∧
      (∃ ws ∈ pre, ws.name = "Multipliers and Exclusions") := by
  unfold handle_missing_worksheets
  set st1 := if !(has_worksheet st "Manual Adds") then
    create_worksheet st "Manual Adds" 100 5 else st with hst1
  set st2 := if !(has_worksheet st1 "Multipliers and Exclusions") then
    create_worksheet st1 "Multipliers and Exclusions" 100 3 else st1 with hst2
  have hma1 : ∃ ws ∈ st1, ws.name = "Manual Adds" := by
    rw [hst1]
    by_cases hc : has_worksheet st "Manual Adds"
    · rw [if_neg (by simp [hc])]
      obtain ⟨ws, hmem, hws⟩ := List.any_eq_true.mp hc
      exact ⟨ws, hmem, by simpa using hws⟩
    · rw [if_pos (by simp [hc])]
      exact ⟨⟨"Manual Adds", 100, 5⟩, by simp [create_worksheet], rfl⟩
  have hma2 : ∃ ws ∈ st2, ws.name = "Manual Adds" := by
    rw [hst2]
    obtain ⟨ws, hmem, hws⟩ := hma1
    by_cases hc : has_worksheet st1 "Multipliers and Exclusions"
    · rw [if_neg (by simp [hc])]
      exact ⟨ws, hmem, hws⟩
    · rw [if_pos (by simp [hc])]
      exact ⟨ws, by simp [create_worksheet, hmem], hws⟩
  have hme2 : ∃ ws ∈ st2, ws.name = "Multipliers and Exclusions" := by
    rw [hst2]
    by_cases hc : has_worksheet st1 "Multipliers and Exclusions"
    · rw [if_neg (by simp [hc])]
      obtain ⟨ws, hmem, hws⟩ := List.any_eq_true.mp hc
      exact ⟨ws, hmem, by simpa using hws⟩
    · rw [if_pos (by simp [hc])]
      exact ⟨⟨"Multipliers and Exclusions", 100, 3⟩, by simp [create_worksheet], rfl⟩
  refine ⟨if has_worksheet st2 "Dashboard" then delete_worksheet st2 "Dashboard" else st2,
    by unfold create_worksheet; rfl, ?_, ?_, ?_⟩
  · intro ws hws
    by_cases hc : has_worksheet st2 "Dashboard"
    · rw [if_pos hc] at hws
      have := List.of_mem_filter hws
      simpa using this
    · rw [if_neg hc] at hws
      intro hname
      apply hc
      exact List.any_eq_true.mpr ⟨ws, hws, by simp [hname]⟩
  · by_cases hc : has_worksheet st2 "Dashboard"
    · rw [if_pos hc]
      obtain ⟨ws, hmem, hws⟩ := hma2
      exact ⟨ws, List.mem_filter.mpr ⟨hmem, by simp [hws]⟩, hws⟩
    · rw [if_neg hc]
      exact hma2
  · by_cases hc : has_worksheet st2 "Dashboard"
    · rw [if_pos hc]
      obtain ⟨ws, hmem, hws⟩ := hme2
      exact ⟨ws, List.mem_filter.mpr ⟨hmem, by simp [hws]⟩, hws⟩
    · rw [if_neg hc]
      exact hme2

/-- Claim C7 amended: at the start of each render cycle the runner ensures
the sibling worksheets "Manual Adds" and "Multipliers and Exclusions" exist
(creating them if absent), unconditionally deletes and recreates the
"Dashboard" worksheet sized to 500 rows by 25 columns, and at the end of the
run resizes the Dashboard to `released_movies_length + 5` rows by 25 columns
and reorders the worksheets into the canonical order with Dashboard first. -/
theorem claim7_provisioning (st : SheetState) (released_movies_length : Int) :
    (has_worksheet (handle_missing_worksheets st) "Manual Adds" = true) ∧
    (has_worksheet (handle_missing_worksheets st) "Multipliers and Exclusions" = true) ∧
    ((handle_missing_worksheets st).filter (fun ws => ws.name == "Dashboard") =
      [⟨"Dashboard", 500, 25⟩]) ∧
    ((resize_sheet (handle_missing_worksheets st) "Dashboard"
        (released_movies_length + 5) 25).filter (fun ws => ws.name == "Dashboard") =
      [⟨"Dashboard", released_movies_length + 5, 25⟩]) ∧
    ((run_dashboard_worksheets st released_movies_length).head? =
      some ⟨"Dashboard", released_movies_length + 5, 25⟩) := by
  obtain ⟨pre, hsplit, hnod, ⟨wma, hwma, hma⟩, ⟨wme, hwme, hme⟩⟩ :=
    handle_missing_worksheets_split st
  have hfil : (handle_missing_worksheets st).filter (fun ws => ws.name == "Dashboard") =
      [⟨"Dashboard", 500, 25⟩] := by
    rw [hsplit, List.filter_append]
    rw [List.filter_eq_nil_iff.mpr (fun ws hws => by simp [hnod ws hws])]
    rfl
  have hresize : resize_sheet (handle_missing_worksheets st) "Dashboard"
      (released_movies_length + 5) 25 =
      pre.map (fun ws => if ws.name == "Dashboard" then
        (⟨ws.name, released_movies_length + 5, 25⟩ : Worksheet) else ws) ++
      [⟨"Dashboard", released_movies_length + 5, 25⟩] := by
    rw [hsplit]
    unfold resize_sheet
    rw [List.map_append]
    rfl
  have hnod' : ∀ ws ∈ pre.map (fun ws => if ws.name == "Dashboard" then
      (⟨ws.name, released_movies_length + 5, 25⟩ : Worksheet) else ws),
      ws.name ≠ "Dashboard" := by
    intro ws hws
    obtain ⟨x, hx, rfl⟩ := List.mem_map.mp hws
    rw [if_neg (by simp [hnod x hx])]
    exact hnod x hx
  have hresfil : (resize_sheet (handle_missing_worksheets st) "Dashboard"
      (released_movies_length + 5) 25).filter (fun ws => ws.name == "Dashboard") =
      [⟨"Dashboard", released_movies_length + 5, 25⟩] := by
    rw [hresize, List.filter_append]
    rw [List.filter_eq_nil_iff.mpr (fun ws hws => by simp [hnod' ws hws])]
    rfl
  refine ⟨?_, ?_, hfil, hresfil, ?_⟩
  · rw [hsplit]
    exact List.any_eq_true.mpr ⟨wma, List.mem_append_left _ hwma, by simp [hma]⟩
  · rw [hsplit]
    exact List.any_eq_true.mpr ⟨wme, List.mem_append_left _ hwme, by simp [hme]⟩
  · simp only [run_dashboard_worksheets, reorder_worksheets, canonicalWorksheetOrder]
    rw [hresize]
    have hfind : List.find? (fun ws => ws.name == "Dashboard")
        ((pre.map (fun ws : Worksheet => if ws.name == "Dashboard" then
          (⟨ws.name, released_movies_length + 5, 25⟩ : Worksheet) else ws)) ++
          [(⟨"Dashboard", released_movies_length + 5, 25⟩ : Worksheet)]) =
        some ⟨"Dashboard", released_movies_length + 5, 25⟩ := by
      rw [List.find?_append]
      rw [List.find?_eq_none.mpr (fun ws hws => by simp [hnod' ws hws])]
      rfl
    rw [List.filterMap_cons, hfind]
    rfl

/-! ### Configuration validation and run orchestration (claim C8)

`validate_config` from `src/utils/config.py` (lines 72-141) collects all
missing required fields and all type/validation errors before raising one
aggregated message; `update_dashboards` from `app.py` (lines 37-62) loads,
validates and syncs one config file at a time, checking `draft_id`
uniqueness just before each sync. The incremental list appends of the
Python loops are modelled as whole-list computations; each
`google_sheet_sync` call (spreadsheet and database I/O) is recorded as a
run event. -/

/-- An expected Python type in the required-fields table. -/
inductive PyType where
  | int
  | str
deriving Repr, DecidableEq

/-- The `__name__` of the expected type. -/
def PyType.name : PyType → String
  | .int => "int"
  | .str => "str"

/-- A YAML scalar as Python sees it: an int, a string, or any other value
(float, list, null, ...) carrying its type name; other values never satisfy
an isinstance check against int or str. -/
inductive PyValue where
  | int (n : Int)
  | str (s : String)
  | other (typeName : String)
deriving Repr, DecidableEq

/-- `type(value).__name__`. -/
def PyValue.typeName : PyValue → String
  | .int _ => "int"
  | .str _ => "str"
  | .other t => t

/-- `isinstance(value, expected_type)`. -/
def PyValue.isinstance : PyValue → PyType → Bool
  | .int _, .int => true
  | .str _, .str => true
  | _, _ => false

/-- A parsed YAML config: field names with their values. -/
abbrev RawConfig := List (String × PyValue)

/-- `config.get(field)`. -/
def RawConfig.get? (c : RawConfig) (f : String) : Option PyValue :=
  (c.find? fun p => p.1 == f).map Prod.snd

/-- `field in config`. -/
def RawConfig.hasField (c : RawConfig) (f : String) : Bool :=
  (RawConfig.get? c f).isSome

/-- The `required_fields` table of `validate_config`, in source order. -/
def requiredFields : List (String × PyType) :=
  [("year", .int), ("name", .str), ("sheet_name", .str), ("draft_id", .str),
   ("update_type", .str), ("gspread_credentials_name", .str)]

/-- The `missing_fields` list accumulated by the validation loop: every
required field absent from the config, in table order. -/
def missing_fields_of (config : RawConfig) : List String :=
  (requiredFields.filter fun p => !(RawConfig.hasField config p.1)).map Prod.fst

/-- The `type_errors` list accumulated by `validate_config`: one entry per
present required field of the wrong type, then the year-range check, the
update_type enumeration check and the conditional s3 requirements. -/
def type_errors_of (config : RawConfig) (current_year : Int) : List String :=
  (requiredFields.filterMap fun p =>
    match RawConfig.get? config p.1 with
    | none => none
    | some v =>
      if v.isinstance p.2 then none
      else some (p.1 ++ ": expected " ++ p.2.name ++ ", got " ++ v.typeName)) ++
  (match RawConfig.get? config "year" with
   | some (.int y) =>
     if y ≠ current_year - 1 ∧ y ≠ current_year then
       ["year: must be " ++ toString (current_year - 1) ++ " or " ++
         toString current_year ++ ", got " ++ toString y]
     else []
   | _ => []) ++
  (match RawConfig.get? config "update_type" with
   | some v => if v ≠ PyValue.str "s3" ∧ v ≠ PyValue.str "web" then
       ["update_type: must be s3 or web"] else []
   | none => []) ++
  (if RawConfig.get? config "update_type" = some (.str "s3") then
    (if !(RawConfig.hasField config "bucket") then
      ["bucket: required when update_type is s3"] else []) ++
    (if !(RawConfig.hasField config "s3_access_key_id_var_name") then
      ["s3_access_key_id_var_name: required when update_type is s3"] else []) ++
    (if !(RawConfig.hasField config "s3_secret_access_key_var_name") then
      ["s3_secret_access_key_var_name: required when update_type is s3"] else [])
   else [])

/-- `validate_config`: raises one aggregated message naming every missing
field and every type error, or returns the config unchanged. -/
def validate_config (config : RawConfig) (current_year : Int) :
    Except String RawConfig :=
  let missing_fields := missing_fields_of config
  let type_errors := type_errors_of config current_year
  let errors :=
    (if missing_fields ≠ [] then
      ["Missing required fields: " ++ ", ".intercalate missing_fields] else []) ++
    (if type_errors ≠ [] then
      ["Type/validation errors: " ++ "; ".intercalate type_errors] else [])
  if errors ≠ [] then
    Except.error ("Configuration validation failed:\n" ++ "\n".intercalate errors)
  else Except.ok config

/-- `config_dict[draft_id]` of a validated config (a string after
validation). -/
def draft_id_of (config : RawConfig) : String :=
  match RawConfig.get? config "draft_id" with
  | some (.str d) => d
  | _ => ""

/-- One observable I/O action of a run: the `google_sheet_sync` call for a
config (spreadsheet writes plus database queries). -/
inductive RunEvent where
  | sync (draft_id : String)
deriving Repr, DecidableEq

/-- The loop of `update_dashboards` in `app.py` (lines 49-62): for each
config file in order, load and validate it, abort on a duplicate
`draft_id`, otherwise record it as seen and sync its dashboard. Returns the
sync events issued and the aborting error, if any. -/
def update_dashboards : Int → List RawConfig → List String → List RunEvent →
    List RunEvent × Option String
  | _, [], _, events => (events, none)
  | current_year, config :: rest, seen_draft_ids, events =>
    match validate_config config current_year with
    | .error e => (events, some e)
    | .ok config =>
      let draft_id := draft_id_of config
      if seen_draft_ids.contains draft_id then
        (events, some ("draft_id " ++ draft_id ++ " is used in multiple config files"))
      else
        update_dashboards current_year rest (draft_id :: seen_draft_ids)
          (events ++ [RunEvent.sync draft_id])

/-- `update_dashboards` as invoked: no configs seen, no events yet. -/
def run_update_dashboards (configs : List RawConfig) (current_year : Int) :
    List RunEvent × Option String :=
  update_dashboards current_year configs [] []

/-- A fully valid config for the 2025 league. -/
def cfgA : RawConfig :=
  [("year", .int 2025), ("name", .str "League A"), ("sheet_name", .str "Sheet A"),
   ("draft_id", .str "friends_2025"), ("update_type", .str "web"),
   ("gspread_credentials_name", .str "GSPREAD_CREDENTIALS")]

/-- A second valid config that reuses the `draft_id` of `cfgA`. -/
def cfgB : RawConfig :=
  [("year", .int 2025), ("name", .str "League B"), ("sheet_name", .str "Sheet B"),
   ("draft_id", .str "friends_2025"), ("update_type", .str "web"),
   ("gspread_credentials_name", .str "GSPREAD_CREDENTIALS")]

/-- Claim C8 counterexample: with two individually valid config files
sharing a `draft_id`, the run aborts on the duplicate only after the first
dashboard has already been synced — spreadsheet and database I/O precede
the configuration error and the run is partially applied, contradicting the
claim that such errors fail fast before any I/O. -/
theorem claim8_counterexample :
    (run_update_dashboards [cfgA, cfgB] 2025).2.isSome = true ∧
    (run_update_dashboards [cfgA, cfgB] 2025).1 = [RunEvent.sync "friends_2025"] := by
  constructor <;> rfl

theorem validate_config_ok_eq {c x : RawConfig} {cy : Int}
    (h : validate_config c cy = .ok x) : x = c := by
  simp only [validate_config] at h
  by_cases hm : missing_fields_of c = []
  · by_cases ht : type_errors_of c cy = []
    · simp only [hm, ht] at h
      simp at h
      first
      | exact h
      | exact h.symm
    · simp [hm, ht] at h
  · simp [hm] at h

/-- The run syncs exactly a prefix of the configs: every issued sync
precedes the abort point, and an error-free run syncs them all. -/
theorem update_dashboards_events_prefix (current_year : Int) :
    ∀ (configs : List RawConfig) (seen : List String) (events : List RunEvent),
      ∃ k ≤ configs.length,
        (update_dashboards current_year configs seen events).1 =
          events ++ ((configs.take k).map fun c => RunEvent.sync (draft_id_of c)) ∧
        ((update_dashboards current_year configs seen events).2 = none →
          k = configs.length) := by
  intro configs
  induction configs with
  | nil =>
    intro seen events
    exact ⟨0, Nat.le_refl 0, by simp [update_dashboards], fun _ => rfl⟩
  | cons c rest ih =>
    intro seen events
    cases hv : validate_config c current_year with
    | error e =>
      refine ⟨0, Nat.zero_le _, ?_, ?_⟩
      · simp [update_dashboards, hv]
      · simp [update_dashboards, hv]
    | ok c' =>
      have hc : c' = c := validate_config_ok_eq hv
      subst hc
      by_cases hdup : draft_id_of c' ∈ seen
      · refine ⟨0, Nat.zero_le _, ?_, ?_⟩
        · simp [update_dashboards, hv, hdup]
        · simp [update_dashboards, hv, hdup]
      · obtain ⟨k, hk, h1, h2⟩ := ih (draft_id_of c' :: seen)
          (events ++ [RunEvent.sync (draft_id_of c')])
        refine ⟨k + 1, Nat.succ_le_succ hk, ?_, ?_⟩
        · simp only [update_dashboards, hv]
          rw [if_neg (by simp [hdup])]
          rw [h1, List.take_succ_cons, List.map_cons, List.append_assoc]
          rfl
        · intro hnone
          have hkl : k = rest.length := by
            apply h2
            simp only [update_dashboards, hv] at hnone
            rwa [if_neg (by simp [hdup])] at hnone
          simp [hkl]

/-- Claim C8 amended: validation of each config file aggregates all of its
missing required fields and all of its type mismatches into one error and
fails before that file is synced; but config files are loaded, validated
and synced one at a time, so an error in a later file — including a
duplicate `draft_id` across files — aborts the run only after every earlier
file has already been fully synced: the issued I/O is always exactly a
prefix of the configs, all of them exactly when no error occurred. -/
theorem claim8_validation_and_run (configs : List RawConfig) (current_year : Int)
    (c : RawConfig) (f : String) (t : PyType) (v : PyValue) :
    (f ∈ missing_fields_of c ↔
      f ∈ requiredFields.map Prod.fst ∧ RawConfig.get? c f = none) ∧
    ((f, t) ∈ requiredFields → RawConfig.get? c f = some v →
      v.isinstance t = false →
      (f ++ ": expected " ++ t.name ++ ", got " ++ v.typeName) ∈
        type_errors_of c current_year) ∧
    ((∃ m, validate_config c current_year = Except.error m) ↔
      (missing_fields_of c ≠ [] ∨ type_errors_of c current_year ≠ [])) ∧
    (∃ k ≤ configs.length,
      (run_update_dashboards configs current_year).1 =
        ((configs.take k).map fun cfg => RunEvent.sync (draft_id_of cfg)) ∧
      ((run_update_dashboards configs current_year).2 = none →
        k = configs.length)) := by
  refine ⟨?_, ?_, ?_, ?_⟩
  · constructor
    · intro hf
      simp only [missing_fields_of, List.mem_map, List.mem_filter] at hf
      obtain ⟨p, ⟨hp, hnot⟩, rfl⟩ := hf
      refine ⟨List.mem_map.mpr ⟨p, hp, rfl⟩, ?_⟩
      simpa [RawConfig.hasField, Option.isSome_iff_exists] using hnot
    · rintro ⟨hf, hget⟩
      obtain ⟨p, hp, rfl⟩ := List.mem_map.mp hf
      simp only [missing_fields_of, List.mem_map, List.mem_filter]
      exact ⟨p, ⟨hp, by simp [RawConfig.hasField, hget]⟩, rfl⟩
  · intro hmem hget hinst
    simp only [type_errors_of]
    refine List.mem_append_left _ (List.mem_append_left _ (List.mem_append_left _ ?_))
    exact List.mem_filterMap.mpr ⟨(f, t), hmem, by simp [hget, hinst]⟩
  · constructor
    · rintro ⟨m, hm⟩
      by_contra hno
      push_neg at hno
      simp [validate_config, hno.1, hno.2] at hm
    · intro hor
      simp only [validate_config]
      have herrs : ((if missing_fields_of c ≠ [] then
          ["Missing required fields: " ++ ", ".intercalate (missing_fields_of c)]
        else []) ++
        (if type_errors_of c current_year ≠ [] then
          ["Type/validation errors: " ++
            "; ".intercalate (type_errors_of c current_year)]
        else [])) ≠ [] := by
        rcases hor with h1 | h1 <;> simp [h1]
      exact ⟨_, by rw [if_pos herrs]⟩
  · exact update_dashboards_events_prefix current_year configs [] []

/-- A config with a wrongly typed year and several missing fields. -/
def cfgBad : RawConfig := [("year", .str "2025"), ("sheet_name", .str "Sheet X")]

/-- Claim C8 amended witness: on a concrete bad config the aggregated error
lists both the year type mismatch and the missing name field, and the
two-config duplicate run syncs exactly the first config before aborting. -/
theorem claim8_witness :
    ("year" ++ ": expected " ++ PyType.int.name ++ ", got " ++
      (PyValue.str "2025").typeName) ∈ type_errors_of cfgBad 2025 ∧
    "name" ∈ missing_fields_of cfgBad ∧
    (∃ m, validate_config cfgBad 2025 = Except.error m) := by
  refine ⟨?_, ?_, ?_⟩
  · exact (claim8_validation_and_run [] 2025 cfgBad "year" PyType.int
      (PyValue.str "2025")).2.1 (by decide) (by decide) (by decide)
  · exact (claim8_validation_and_run [] 2025 cfgBad "name" PyType.str
      (PyValue.str "")).1.mpr ⟨by decide, by decide⟩
  · exact (claim8_validation_and_run [] 2025 cfgBad "name" PyType.str
      (PyValue.str "")).2.2.1.mpr (Or.inl (by decide))

/-- Claim C10 amended: the two re-implementations of the layout formula in
`src/utils/gsheet.py` and `src/sheets/tabs/dashboard.py` are extensionally
equal — they return identical layouts on every input, agreeing both on the
spacing constant (3) and on the exactly-minimum-space edge case
(`available_height = 6`). -/
theorem claim10_layout_impls_agree (s r w b : Int) :
    Gsheet.calculate_picks_table_layout s r w b =
      DashboardTab.calculate_picks_table_layout s r w b :=
  layout_impl_eq s r w b

end BoxOffice
